import Mathlib

/-!
Verification of the kitkat repository: a shallow embedding in Lean 4 of the
MCP tool server (src/mcp-server.cts) and of the React chat client
(src/unnamed/part_000), followed by theorems settling the frozen claims
about the tool handlers, the conversation store and the turn orchestrator.

Modelling conventions, applied throughout:
- JavaScript strings are Lean `String`; `s.toLowerCase()` is `jsToLower`,
  `s.trim()` is `jsTrim`, `s.substring(0, 8)` is `jsTake8` (all defined on
  the character list so that the kernel can evaluate them on literals).
- A JavaScript value that may be `undefined` or `null` is an `Option`.
- JavaScript truthiness on strings (`if (s)`) is the test `s` is not empty;
  on optional values it is `Option.isSome` combined with the inner test.
- Offer prices are exact two-decimal amounts; they are modelled in cents
  (`priceCents : Nat`), with `toFixed2` rendering `price.toFixed(2)` and
  `jsonNumber` rendering `JSON.stringify` of the same amount.
- `JSON.stringify` of the fixed object shapes the server builds is embedded
  by the explicit serializers below (key order follows insertion order in
  the source; string escaping follows the JSON rules for the characters
  that can occur here).
- The host primitive `JSON.parse` combined with the `data.widget_data`
  field test, used once by the client, is passed to the orchestrator as an
  explicit oracle `jsonWidget : String → Option WidgetData`; the axios
  transport is passed as an explicit `TransportOutcome`.
-/

/-- JavaScript `String.prototype.toLowerCase`, modelled character-wise. -/
def jsToLower (s : String) : String := String.mk (s.data.map Char.toLower)

/-- Characters removed by JavaScript `String.prototype.trim`. -/
def jsWhitespace (c : Char) : Bool :=
  c = ' ' || c = '\t' || c = '\n' || c = '\r' || c = '\x0b' || c = '\x0c'

/-- JavaScript `String.prototype.trim`, modelled character-wise. -/
def jsTrim (s : String) : String :=
  String.mk (((s.data.dropWhile jsWhitespace).reverse.dropWhile jsWhitespace).reverse)

/-- JavaScript `s.substring(0, 8)`. -/
def jsTake8 (s : String) : String := String.mk (s.data.take 8)

/-- JSON escaping of one character, as performed by `JSON.stringify` on the
characters occurring in this system. -/
def jsonEscapeChar (c : Char) : String :=
  if c = '"' then "\\\""
  else if c = '\\' then "\\\\"
  else if c = '\n' then "\\n"
  else if c = '\r' then "\\r"
  else if c = '\t' then "\\t"
  else String.singleton c

/-- JSON escaping of a string body, as performed by `JSON.stringify`. -/
def jsonEscape (s : String) : String := String.join (s.data.map jsonEscapeChar)

/-- A JSON string literal: quotes around the escaped body. -/
def jsonString (s : String) : String := "\"" ++ jsonEscape s ++ "\""

/-- `price.toFixed(2)` on an exact two-decimal amount held in cents. -/
def toFixed2 (cents : Nat) : String :=
  toString (cents / 100) ++ "." ++ (if cents % 100 < 10 then "0" else "") ++ toString (cents % 100)

/-- `JSON.stringify` of the numeric price (cents model): integral amounts
drop the fraction digits, others print both decimals. -/
def jsonNumber (cents : Nat) : String :=
  if cents % 100 = 0 then toString (cents / 100) else toFixed2 cents

/-- `Offer` from mcp-server.cts: `{ id, name, price, description }`. -/
structure Offer where
  id : String
  name : String
  priceCents : Nat
  description : String
deriving DecidableEq, Repr

/-- `OfferData` from mcp-server.cts: the two catalog categories. -/
structure OfferData where
  home : List Offer
  business : List Offer
deriving DecidableEq, Repr

/-- The mock catalog `OFFERS` from mcp-server.cts. -/
def OFFERS : OfferData :=
  { home :=
      [ { id := "home_basic", name := "Home Basic Shield", priceCents := 4999,
          description := "Door/Window sensors, 24/7 monitoring." }
      , { id := "home_pro", name := "Home Pro+", priceCents := 9999,
          description := "Includes cameras, smart alerts, and fire monitoring." } ]
  , business :=
      [ { id := "biz_starter", name := "Business Starter", priceCents := 7999,
          description := "Basic access control and alarm monitoring." }
      , { id := "biz_fortress", name := "Business Fortress", priceCents := 19999,
          description := "Full video surveillance, remote access, advanced analytics." } ] }

/-- One item of a tool result: `{ type: 'text', text: ... }`. -/
structure ContentItem where
  type : String
  text : String
deriving DecidableEq, Repr

/-- The content envelope every tool handler returns: `{ content: [...] }`. -/
structure ContentEnvelope where
  content : List ContentItem
deriving DecidableEq, Repr

/-- `JSON.stringify` of one offer object (key order as declared). -/
def serializeOffer (o : Offer) : String :=
  "\x7b\"id\":" ++ jsonString o.id
    ++ ",\"name\":" ++ jsonString o.name
    ++ ",\"price\":" ++ jsonNumber o.priceCents
    ++ ",\"description\":" ++ jsonString o.description ++ "\x7d"

/-- `JSON.stringify({ offers: offers })` from the getOffers handler. -/
def serializeOffers (os : List Offer) : String :=
  "\x7b\"offers\":[" ++ String.intercalate "," (os.map serializeOffer) ++ "]\x7d"

/-- `input.category ? input.category.toLowerCase() : 'home'` from the
getOffers handler; an absent or empty (falsy) category yields `'home'`. -/
def selectedCategory (category : Option String) : String :=
  match category with
  | some s => if s = "" then "home" else jsToLower s
  | none => "home"

/-- A value the property access `OFFERS[selectedCategory]` can produce at
runtime: one of the two own offer arrays, or a member inherited from the
object prototype. The category string is always lower-cased first, and the
only members of the object prototype whose names are lower-case stable are
`constructor` (the Object constructor function) and `__proto__` (the
object prototype itself); every other prototype member (hasOwnProperty,
toString, valueOf, ...) has a capital letter and is unreachable. -/
inductive OffersValue where
  | arr (os : List Offer)
  | inheritedCtorFn
  | inheritedProtoObj
deriving DecidableEq, Repr

/-- The property access `OFFERS[selectedCategory as keyof OfferData]` on
the object literal: the two own keys yield the offer arrays, the lookup
then continues along the prototype chain, where a lower-cased key can hit
`constructor` or `__proto__`; every other key is undefined. -/
def offersLookup (k : String) : Option OffersValue :=
  if k = "home" then some (.arr OFFERS.home)
  else if k = "business" then some (.arr OFFERS.business)
  else if k = "constructor" then some .inheritedCtorFn
  else if k = "__proto__" then some .inheritedProtoObj
  else none

/-- `OFFERS[selectedCategory] || OFFERS.home` from the getOffers handler:
arrays, functions and objects are all truthy, so the fallback fires
exactly when the lookup is undefined — not on the inherited members. -/
def getOffersSelected (category : Option String) : OffersValue :=
  (offersLookup (selectedCategory category)).getD (.arr OFFERS.home)

/-- `JSON.stringify({ offers: offers })` on the selected value: an offer
array serializes as the offers object; a function value is dropped by
stringify, leaving the empty object; the object prototype serializes as
an empty object, its members being non-enumerable. -/
def serializeOffersValue : OffersValue → String
  | .arr os => serializeOffers os
  | .inheritedCtorFn => "\x7b\x7d"
  | .inheritedProtoObj => "\x7b\"offers\":\x7b\x7d\x7d"

/-- The getOffers tool handler from mcp-server.cts. -/
def getOffers (category : Option String) : ContentEnvelope :=
  { content := [{ type := "text", text := serializeOffersValue (getOffersSelected category) }] }

/-- The error text of the createPurchaseLink missing-id branch. -/
def missingIdText : String :=
  "Error: Missing offer ID. Please ask the user to specify an ID from the available offers."

/-- The checkout URL template from the createPurchaseLink handler:
lower-cased offer id in the path, first eight characters of the fresh
UUID as the source suffix. -/
def checkoutUrl (oid uuid : String) : String :=
  "https://your-company.com/checkout/" ++ jsToLower oid ++ "?source=agent-" ++ jsTake8 uuid

/-- `JSON.stringify({ purchase_url: checkoutUrl })`. -/
def serializePurchaseUrl (url : String) : String :=
  "\x7b\"purchase_url\":" ++ jsonString url ++ "\x7d"

/-- The createPurchaseLink tool handler from mcp-server.cts. The fresh
value returned by `randomUUID()` for this call is the explicit `uuid`
argument; an absent or empty (falsy) `offer_id` takes the error branch
before the URL is built. -/
def createPurchaseLink (offer_id : Option String) (uuid : String) : ContentEnvelope :=
  match offer_id with
  | none => { content := [{ type := "text", text := missingIdText }] }
  | some oid =>
      if oid = "" then { content := [{ type := "text", text := missingIdText }] }
      else
        { content := [{ type := "text", text := serializePurchaseUrl (checkoutUrl oid uuid) }] }

/-- `widget_data.metadata` of the widget payload: the offer ids. -/
structure WidgetMetadata where
  offers : List String
deriving DecidableEq, Repr

/-- `widget_data` of the widget payload: rendered html plus metadata. -/
structure WidgetData where
  html : String
  metadata : WidgetMetadata
deriving DecidableEq, Repr

/-- The payload object the generateOfferWidget handler serializes:
`status`, optional `widget_data`, optional `message`. -/
structure WidgetResult where
  status : String
  widget_data : Option WidgetData
  message : Option String
deriving DecidableEq, Repr

/-- The per-offer HTML card from the generateOfferWidget handler
(the body of `offers.map(offer => ...)`). -/
def offerCard (offer : Offer) : String :=
  "\n            <div class=\"p-4 bg-white rounded-xl shadow-lg border border-indigo-100 mb-4 transition-all hover:shadow-xl hover:scale-[1.01] cursor-pointer\" \n                 data-offer-id=\""
    ++ offer.id
    ++ "\">\n                <div class=\"flex items-start justify-between\">\n                    <h3 class=\"text-xl font-bold text-indigo-700\">"
    ++ offer.name
    ++ "</h3>\n                    <p class=\"text-2xl font-extrabold text-gray-900\">$"
    ++ toFixed2 offer.priceCents
    ++ "</p>\n                </div>\n                <p class=\"text-sm text-gray-500 mt-2\">"
    ++ offer.description
    ++ "</p>\n                <!-- This button would trigger a subsequent action or tool call -->\n                <button class=\"mt-4 w-full bg-indigo-600 text-white py-2 rounded-lg font-medium hover:bg-indigo-700 transition duration-150\"\n                        onclick=\"agentCall(\x27createPurchaseLink\x27, \x7boffer_id: \x27"
    ++ offer.id
    ++ "\x27\x7d)\">\n                    Select Plan\n                </button>\n            </div>\n        "

/-- `offers.map(offer => ...).join('')` from the handler: the cards
concatenated in input order, nothing sorted, nothing deduplicated. -/
def widgetBody (offers : List Offer) : String := String.join (offers.map offerCard)

/-- The outer `finalWidget` template wrapping the joined cards. -/
def finalWidget (body : String) : String :=
  "\n            <div class=\"p-6 bg-gray-50 rounded-2xl shadow-2xl\">\n                <h2 class=\"text-2xl font-extrabold text-indigo-800 border-b pb-3 mb-4\">\n                    Recommended Security Packages 🛡️\n                </h2>\n                "
    ++ body
    ++ "\n                <p class=\"mt-4 text-xs text-gray-500 text-center\">\n                    Click \x27Select Plan\x27 to generate a unique purchase link.\n                </p>\n            </div>\n        "

/-- The error message of the empty-offers branch. -/
def noOffersText : String := "No offers available to generate widget."

/-- The payload built by the generateOfferWidget handler: the error object
for an absent or empty offers array, otherwise the success object whose
metadata lists the ids in input order. -/
def generateOfferWidgetPayload (offers : Option (List Offer)) : WidgetResult :=
  match offers with
  | none => { status := "error", widget_data := none, message := some noOffersText }
  | some os =>
      if os = [] then { status := "error", widget_data := none, message := some noOffersText }
      else
        { status := "success"
        , widget_data := some
            { html := finalWidget (widgetBody os)
            , metadata := { offers := os.map Offer.id } }
        , message := none }

/-- `JSON.stringify` of `widget_data` (key order as built in the source). -/
def serializeWidgetData (wd : WidgetData) : String :=
  "\x7b\"html\":" ++ jsonString wd.html
    ++ ",\"metadata\":\x7b\"offers\":["
    ++ String.intercalate "," (wd.metadata.offers.map jsonString)
    ++ "]\x7d\x7d"

/-- `JSON.stringify` of the payload object (key order as built). -/
def serializeWidgetResult (r : WidgetResult) : String :=
  "\x7b\"status\":" ++ jsonString r.status
    ++ (match r.widget_data with
        | some wd => ",\"widget_data\":" ++ serializeWidgetData wd
        | none => "")
    ++ (match r.message with
        | some m => ",\"message\":" ++ jsonString m
        | none => "")
    ++ "\x7d"

/-- The generateOfferWidget tool handler from mcp-server.cts. -/
def generateOfferWidget (offers : Option (List Offer)) : ContentEnvelope :=
  { content := [{ type := "text", text := serializeWidgetResult (generateOfferWidgetPayload offers) }] }

/-- A `functionCall` part of an agent message (name plus serialized args). -/
structure FunctionCall where
  name : String
  argsJson : String
deriving DecidableEq, Repr

/-- `attr.web` inside a grounding attribution. -/
structure WebInfo where
  uri : Option String
  title : Option String
deriving DecidableEq, Repr

/-- One grounding attribution of a part. -/
structure GroundingAttr where
  web : Option WebInfo
deriving DecidableEq, Repr

/-- `part.groundingMetadata`. -/
structure GroundingMeta where
  groundingAttributions : Option (List GroundingAttr)
deriving DecidableEq, Repr

/-- One element of `content.parts` in an agent message. -/
structure MsgPart where
  text : Option String
  functionCall : Option FunctionCall
  groundingMetadata : Option GroundingMeta
deriving DecidableEq, Repr

/-- The shape read through `message?.content?.parts`: whatever object sits
in a `content` property, of which only `parts` is accessed. -/
structure CShape where
  parts : Option (List MsgPart)
deriving DecidableEq, Repr

/-- A message-like JavaScript object as the client manipulates it: it may
carry a `content` property (what `parseAgentResponse` reads through), a
`parts` property (what the API content objects actually carry), and a
`text` property (written by the display override in handleSendMessage).
The API content objects constructed in the program populate only `parts`. -/
structure JsMsg where
  content : Option CShape
  parts : Option (List MsgPart)
  text : Option String
deriving DecidableEq, Repr

/-- One grounding source extracted by `parseAgentResponse`. -/
structure Source where
  uri : Option String
  title : Option String
deriving DecidableEq, Repr

/-- The structured result of `parseAgentResponse`. -/
structure ParsedResponse where
  toolCalls : List FunctionCall
  text : String
  groundingSources : List Source
deriving DecidableEq, Repr

/-- `parseAgentResponse` from part_000: reads `message?.content?.parts`
(empty when the argument has no `content` property), accumulates the
function calls, concatenates the text fragments in part order, and maps
the grounding attributions to sources. -/
def parseAgentResponse (message : JsMsg) : ParsedResponse :=
  let parts := (message.content.bind CShape.parts).getD []
  { toolCalls := parts.filterMap MsgPart.functionCall
  , text := String.join (parts.filterMap MsgPart.text)
  , groundingSources :=
      parts.flatMap (fun p =>
        ((p.groundingMetadata.bind GroundingMeta.groundingAttributions).getD []).map
          (fun a => { uri := a.web.bind WebInfo.uri, title := a.web.bind WebInfo.title })) }

/-- One entry of the React `history` state: role, optional content object,
optional widget tag, optional error text (error entries carry no content). -/
structure HistoryEntry where
  role : String
  content : Option JsMsg
  widget : Option WidgetData
  error : Option String
deriving DecidableEq, Repr

/-- The store append `setHistory(h => [...h, e])`. -/
def appendStore (h : List HistoryEntry) (e : HistoryEntry) : List HistoryEntry := h ++ [e]

/-- N successive store appends starting from a snapshot. -/
def appendAll (init : List HistoryEntry) (ts : List HistoryEntry) : List HistoryEntry :=
  ts.foldl appendStore init

/-- A content object `{ parts: [{ text }] }` as built for user turns. -/
def textContent (t : String) : JsMsg :=
  { content := none
  , parts := some [{ text := some t, functionCall := none, groundingMetadata := none }]
  , text := none }

/-- A user history entry `{ role: 'user', content: { parts: [{ text }] } }`. -/
def userEntry (t : String) : HistoryEntry :=
  { role := "user", content := some (textContent t), widget := none, error := none }

/-- An error history entry `{ role: 'error', error }`. -/
def errorEntry (e : String) : HistoryEntry :=
  { role := "error", content := none, widget := none, error := some e }

/-- The synthetic text for a widget button click. -/
def widgetClickText (toolName argsJson : String) : String :=
  "User clicked widget button: " ++ toolName ++ "(" ++ argsJson ++ ")"

/-- The display override string for widget responses. -/
def confirmationText : String := "Here are the recommended packages:"

/-- The fixed message callAgent returns on a transport failure. -/
def fallbackConnectText : String := "Failed to connect to the agent service."

/-- The catch-all message of the outer try in handleSendMessage. -/
def unexpectedErrorText : String := "An unexpected error occurred during communication."

/-- One candidate of the agent API response. -/
structure Candidate where
  content : JsMsg
deriving DecidableEq, Repr

/-- The body returned by the agent endpoint: an error field or candidates. -/
structure AgentApiResponse where
  error : Option String
  candidates : Option (List Candidate)
deriving DecidableEq, Repr

/-- The outcome of the single `axios.post` inside callAgent: a transport
failure (caught locally) or the response data. -/
inductive TransportOutcome where
  | failure
  | success (data : AgentApiResponse)
deriving DecidableEq, Repr

/-- `callAgent` from part_000: on a transport failure it swallows the
exception and returns `{ error: 'Failed to connect to the agent service.' }`,
otherwise it returns the response data unchanged. -/
def callAgent : TransportOutcome → AgentApiResponse
  | .failure => { error := some fallbackConnectText, candidates := none }
  | .success data => data

/-- The React state handleSendMessage touches: the committed history, the
`isThinking` busy gate, and the input box value. -/
structure AppState where
  history : List HistoryEntry
  isThinking : Bool
  input : String
deriving DecidableEq, Repr

/-- The post-callAgent half of handleSendMessage when `result.error` is
falsy: read `result.candidates[0].content` (a missing or empty candidates
array throws and is caught by the outer try, appending the catch-all error
entry), run the widget probe on the text that `parseAgentResponse`
extracts from the content object, and append the agent entry. The
committed state is extended through `setHistory(h => [...h, e])`, which
starts from the previously committed history: the locally built transcript
is not part of it. -/
def agentSuccessStep (st : AppState) (input1 : String) (result : AgentApiResponse)
    (jsonWidget : String → Option WidgetData) : AppState :=
  match result.candidates with
  | some (c :: _) =>
      let agentMessage := c.content
      match jsonWidget (parseAgentResponse agentMessage).text with
      | some wd =>
          let overridden := { agentMessage with text := some confirmationText }
          { history := appendStore st.history
              { role := "agent", content := some overridden, widget := some wd, error := none }
          , isThinking := false, input := input1 }
      | none =>
          { history := appendStore st.history
              { role := "agent", content := some agentMessage, widget := none, error := none }
          , isThinking := false, input := input1 }
  | _ =>
      { history := appendStore st.history (errorEntry unexpectedErrorText)
      , isThinking := false, input := input1 }

/-- `handleSendMessage` from part_000, the turn orchestrator. Arguments
mirror the call `handleSendMessage(userText, toolName, toolArgs)` with the
serialized tool args, plus the transport outcome of the one axios call and
the `JSON.parse`-with-`widget_data` oracle. It returns the new React state
together with the list of transcripts sent to the agent boundary (empty
when the busy gate rejects the submission, a single transcript otherwise).
The user turn and the synthetic widget-click turn are pushed only onto the
local `newHistory` that is sent to the agent; every `setHistory` call
appends a single entry to the previously committed history. -/
def handleSendMessage (st : AppState) (userText : Option String) (toolName : Option String)
    (toolArgsJson : String) (transport : TransportOutcome)
    (jsonWidget : String → Option WidgetData) : AppState × List (List HistoryEntry) :=
  if st.isThinking then (st, [])
  else
    let h1 := match userText with
      | some t => if jsTrim t = "" then st.history else appendStore st.history (userEntry t)
      | none => st.history
    let newHistory := match toolName with
      | some tn => if tn = "" then h1 else appendStore h1 (userEntry (widgetClickText tn toolArgsJson))
      | none => h1
    let input1 := match userText with
      | some t => if jsTrim t = "" then st.input else ""
      | none => st.input
    let result := callAgent transport
    let next := match result.error with
      | some e =>
          if e = "" then agentSuccessStep st input1 result jsonWidget
          else
            { history := appendStore st.history (errorEntry e)
            , isThinking := false, input := input1 }
      | none => agentSuccessStep st input1 result jsonWidget
    (next, [newHistory])

/-- The prose text the `ChatMessage` component shows for an entry: it runs
`parseAgentResponse` on the entry content (error entries have none). -/
def displayedText (e : HistoryEntry) : String :=
  match e.content with
  | some m => (parseAgentResponse m).text
  | none => ""

/-- The initial greeting entry of the React history state. -/
def greetingEntry : HistoryEntry :=
  { role := "agent"
  , content := some (textContent "Hello! How can I assist you today? Try asking about \x27home\x27 or \x27business\x27 security packages.")
  , widget := none, error := none }

/-- An idle client state holding the greeting, with text typed in the box. -/
def stIdle0 : AppState := { history := [greetingEntry], isThinking := false, input := "hi" }

/-- A busy client state: the gate is up. -/
def stBusy0 : AppState := { history := [greetingEntry], isThinking := true, input := "" }

/-- A plain successful agent response with one prose part. -/
def okResponse : TransportOutcome :=
  .success { error := none, candidates := some [{ content := textContent "Hi there!" }] }

/-- A response carrying a server-side error field. -/
def respQuota : TransportOutcome :=
  .success { error := some "quota exceeded", candidates := none }

/-- First element of the home catalog, for concrete widget inputs. -/
def homeBasic : Offer :=
  { id := "home_basic", name := "Home Basic Shield", priceCents := 4999,
    description := "Door/Window sensors, 24/7 monitoring." }

/-- Two distinct UUID values agreeing on their first eight characters. -/
def uuidA : String := "aaaaaaaa-1111-4000-8000-000000000000"

/-- See `uuidA`. -/
def uuidB : String := "aaaaaaaa-2222-4000-8000-000000000000"

/-- A UUID value differing from `uuidA` in its first eight characters. -/
def uuidC : String := "bbbbbbbb-3333-4000-8000-000000000000"

/-- A concrete widget payload as the widget tool would emit. -/
def wd0 : WidgetData := { html := "<div>offers</div>", metadata := { offers := ["home_basic", "home_pro"] } }

/-- The payload object around `wd0`. -/
def widgetPayload0 : WidgetResult := { status := "success", widget_data := some wd0, message := none }

/-- The serialized form of `widgetPayload0`, as it travels in a text part. -/
def widgetText0 : String := serializeWidgetResult widgetPayload0

/-- An agent content object whose single part carries `widgetText0`. -/
def widgetRespContent : JsMsg := textContent widgetText0

/-- A successful agent response whose text is the serialized widget payload. -/
def widgetResp : TransportOutcome :=
  .success { error := none, candidates := some [{ content := widgetRespContent }] }

/-- A parse oracle consistent with `JSON.parse` on the strings involved:
it recovers `wd0` from `widgetText0` and fails on everything else (in
particular on the empty string, where `JSON.parse` throws). -/
def widgetOracle : String → Option WidgetData :=
  fun s => if s = widgetText0 then some wd0 else none

theorem foldl_append_str (l : List String) (s : String) :
    l.foldl (fun a b => a ++ b) s = s ++ String.join l := by
  induction l generalizing s with
  | nil => simp [String.join]
  | cons x xs ih =>
      simp only [List.foldl, String.join] at *
      rw [ih (s ++ x), ih ("" ++ x), String.empty_append, String.append_assoc]

theorem join_append (a b : List String) :
    String.join (a ++ b) = String.join a ++ String.join b := by
  simp only [String.join, List.foldl_append]
  rw [foldl_append_str b (List.foldl (fun a b => a ++ b) "" a)]
  rfl

theorem str_append_left_cancel {a b c : String} (h : a ++ b = a ++ c) : b = c := by
  have h2 := congrArg String.data h
  simp only [String.data_append, List.append_cancel_left_eq] at h2
  exact String.ext h2

theorem appendAll_eq (init ts : List HistoryEntry) : appendAll init ts = init ++ ts := by
  induction ts generalizing init with
  | nil => simp [appendAll]
  | cons t ts ih =>
      simp only [appendAll, List.foldl] at *
      rw [ih (appendStore init t)]
      simp [appendStore]

/-- C2 counterexample: the category string `Constructor` lower-cases to
`constructor`, which names neither known category, yet the property access
hits the inherited Object constructor — truthy, so the home fallback does
not fire and the handler returns the empty-object text instead of the home
offers; likewise `__proto__` hits the object prototype and returns an
empty offers object. The claimed universal fallback for unrecognized
strings is false at these inputs. -/
theorem getOffers_prototype_leak :
    jsToLower "Constructor" ≠ "home"
    ∧ jsToLower "Constructor" ≠ "business"
    ∧ getOffersSelected (some "Constructor") ≠ OffersValue.arr OFFERS.home
    ∧ getOffers (some "Constructor") = { content := [{ type := "text", text := "\x7b\x7d" }] }
    ∧ getOffers (some "__proto__")
        = { content := [{ type := "text", text := "\x7b\"offers\":\x7b\x7d\x7d" }] } :=
  ⟨by decide, by decide, by decide, rfl, rfl⟩

/-- C2 (amended): a category whose lower-cased form names a known category
selects exactly that category of the catalog in order; an absent category,
an empty one, and every unrecognized string except those lower-casing to
the two inherited prototype keys fall back deterministically to the home
category; the strings lower-casing to `constructor` or `__proto__` hit
truthy inherited members instead, so the handler returns their stringified
form rather than offers — still deterministically and never as an error,
the envelope always wrapping the stringified selected value. -/
theorem getOffers_category_fallback (category : Option String) :
    ((∃ s, category = some s ∧ jsToLower s = "home") →
        getOffersSelected category = .arr OFFERS.home)
    ∧ ((∃ s, category = some s ∧ jsToLower s = "business") →
        getOffersSelected category = .arr OFFERS.business)
    ∧ (category = none → getOffersSelected category = .arr OFFERS.home)
    ∧ ((∀ s, category = some s →
          jsToLower s ≠ "home" ∧ jsToLower s ≠ "business"
          ∧ jsToLower s ≠ "constructor" ∧ jsToLower s ≠ "__proto__") →
        getOffersSelected category = .arr OFFERS.home)
    ∧ ((∃ s, category = some s ∧ jsToLower s = "constructor") →
        getOffersSelected category = .inheritedCtorFn)
    ∧ ((∃ s, category = some s ∧ jsToLower s = "__proto__") →
        getOffersSelected category = .inheritedProtoObj)
    ∧ getOffers category
        = { content := [{ type := "text", text := serializeOffersValue (getOffersSelected category) }] } := by
  refine ⟨?_, ?_, ?_, ?_, ?_, ?_, rfl⟩
  · rintro ⟨s, rfl, hs⟩
    have hne : s ≠ "" := by rintro rfl; exact absurd hs (by decide)
    simp [getOffersSelected, selectedCategory, offersLookup, hne, hs]
  · rintro ⟨s, rfl, hs⟩
    have hne : s ≠ "" := by rintro rfl; exact absurd hs (by decide)
    simp [getOffersSelected, selectedCategory, offersLookup, hne, hs]
  · rintro rfl
    simp [getOffersSelected, selectedCategory, offersLookup]
  · intro h
    cases category with
    | none => simp [getOffersSelected, selectedCategory, offersLookup]
    | some s =>
        obtain ⟨h1, h2, h3, h4⟩ := h s rfl
        by_cases hs : s = ""
        · subst hs
          simp [getOffersSelected, selectedCategory, offersLookup]
        · simp [getOffersSelected, selectedCategory, offersLookup, hs, h1, h2, h3, h4]
  · rintro ⟨s, rfl, hs⟩
    have hne : s ≠ "" := by rintro rfl; exact absurd hs (by decide)
    simp [getOffersSelected, selectedCategory, offersLookup, hne, hs]
  · rintro ⟨s, rfl, hs⟩
    have hne : s ≠ "" := by rintro rfl; exact absurd hs (by decide)
    simp [getOffersSelected, selectedCategory, offersLookup, hne, hs]

/-- Witness for C2 (amended) at concrete categories: mixed-case known
names select their category, an unknown name and an absent category fall
back to home, and mixed-case forms of the two prototype keys hit the
inherited members. -/
theorem getOffers_category_fallback_witness :
    getOffersSelected (some "BUSINESS") = OffersValue.arr OFFERS.business
    ∧ getOffersSelected (some "HoMe") = OffersValue.arr OFFERS.home
    ∧ getOffersSelected (some "enterprise") = OffersValue.arr OFFERS.home
    ∧ getOffersSelected none = OffersValue.arr OFFERS.home
    ∧ getOffersSelected (some "Constructor") = OffersValue.inheritedCtorFn
    ∧ getOffersSelected (some "__PROTO__") = OffersValue.inheritedProtoObj :=
  ⟨(getOffers_category_fallback (some "BUSINESS")).2.1 ⟨"BUSINESS", rfl, by decide⟩,
   (getOffers_category_fallback (some "HoMe")).1 ⟨"HoMe", rfl, by decide⟩,
   (getOffers_category_fallback (some "enterprise")).2.2.2.1
     (by rintro s hs; injection hs with h; subst h
         exact ⟨by decide, by decide, by decide, by decide⟩),
   (getOffers_category_fallback none).2.2.1 rfl,
   (getOffers_category_fallback (some "Constructor")).2.2.2.2.1 ⟨"Constructor", rfl, by decide⟩,
   (getOffers_category_fallback (some "__PROTO__")).2.2.2.2.2.1 ⟨"__PROTO__", rfl, by decide⟩⟩

/-- C4: generateOfferWidget on an absent or empty offers array yields the
error payload with an explanatory message and no widget data; on every
non-empty array it yields the success payload whose metadata lists the
input ids in input order and whose html wraps the concatenation of the
per-offer cards; card rendering distributes over concatenation, so order
is preserved and duplicates stay duplicated; the handler wraps the
serialized payload in the standard envelope. -/
theorem generateOfferWidget_spec (input : Option (List Offer)) :
    ((input = none ∨ input = some []) →
      generateOfferWidgetPayload input
        = { status := "error", widget_data := none, message := some noOffersText })
    ∧ (∀ os, input = some os → os ≠ [] →
        (generateOfferWidgetPayload input).status = "success"
        ∧ ∃ wd, (generateOfferWidgetPayload input).widget_data = some wd
            ∧ wd.metadata.offers = os.map Offer.id
            ∧ wd.html = finalWidget (widgetBody os))
    ∧ (∀ l1 l2, widgetBody (l1 ++ l2) = widgetBody l1 ++ widgetBody l2)
    ∧ generateOfferWidget input
        = { content := [{ type := "text"
                        , text := serializeWidgetResult (generateOfferWidgetPayload input) }] } := by
  refine ⟨?_, ?_, ?_, rfl⟩
  · rintro (rfl | rfl) <;> simp [generateOfferWidgetPayload]
  · rintro os rfl hos
    refine ⟨by simp [generateOfferWidgetPayload, hos], ?_⟩
    refine ⟨{ html := finalWidget (widgetBody os), metadata := { offers := os.map Offer.id } },
      ?_, rfl, rfl⟩
    simp [generateOfferWidgetPayload, hos]
  · intro l1 l2
    simp [widgetBody, join_append]

/-- Witness for C4: the empty array takes the error branch; a duplicated
input offer yields duplicated ids in the metadata, in input order. -/
theorem generateOfferWidget_spec_witness :
    generateOfferWidgetPayload (some [])
      = { status := "error", widget_data := none, message := some noOffersText }
    ∧ (generateOfferWidgetPayload (some [homeBasic, homeBasic])).status = "success"
    ∧ ∃ wd, (generateOfferWidgetPayload (some [homeBasic, homeBasic])).widget_data = some wd
        ∧ wd.metadata.offers = ["home_basic", "home_basic"]
        ∧ wd.html = finalWidget (widgetBody [homeBasic, homeBasic]) := by
  have h0 := (generateOfferWidget_spec (some [])).1 (Or.inr rfl)
  have h := (generateOfferWidget_spec (some [homeBasic, homeBasic])).2.1
      [homeBasic, homeBasic] rfl (by decide)
  obtain ⟨hs, wd, hwd, hm, hh⟩ := h
  exact ⟨h0, hs, wd, hwd, hm.trans rfl, hh⟩

/-- C9: invoking createPurchaseLink with an absent or empty offer id
returns the structured error content item asking the caller to request an
offer id; this is the first check of the handler itself and the handler
returns normally rather than aborting. -/
theorem purchase_link_missing_id (offer_id : Option String) (uuid : String)
    (h : offer_id = none ∨ offer_id = some "") :
    createPurchaseLink offer_id uuid
      = { content := [{ type := "text", text := missingIdText }] } := by
  rcases h with rfl | rfl <;> simp [createPurchaseLink]

/-- Witness for C9 at both missing-id shapes. -/
theorem purchase_link_missing_id_witness :
    createPurchaseLink none "any-uuid"
      = { content := [{ type := "text", text := missingIdText }] }
    ∧ createPurchaseLink (some "") "any-uuid"
      = { content := [{ type := "text", text := missingIdText }] } :=
  ⟨purchase_link_missing_id none "any-uuid" (Or.inl rfl),
   purchase_link_missing_id (some "") "any-uuid" (Or.inr rfl)⟩

/-- C10: every registered tool handler, on every input and on both its
success and error branches, returns an envelope holding exactly one
content item, of kind text. -/
theorem handlers_single_text_content (category offer_id : Option String) (uuid : String)
    (offers : Option (List Offer)) :
    (getOffers category).content.map ContentItem.type = ["text"]
    ∧ (createPurchaseLink offer_id uuid).content.map ContentItem.type = ["text"]
    ∧ (generateOfferWidget offers).content.map ContentItem.type = ["text"] := by
  refine ⟨rfl, ?_, rfl⟩
  rcases offer_id with _ | oid
  · rfl
  · by_cases h : oid = "" <;> simp [createPurchaseLink, h]

theorem agentSuccessStep_history (st : AppState) (i : String) (r : AgentApiResponse)
    (P : String → Option WidgetData) :
    ∃ x, (agentSuccessStep st i r P).history = st.history ++ [x] := by
  match hr : r.candidates with
  | none =>
      exact ⟨errorEntry unexpectedErrorText, by simp [agentSuccessStep, hr, appendStore]⟩
  | some [] =>
      exact ⟨errorEntry unexpectedErrorText, by simp [agentSuccessStep, hr, appendStore]⟩
  | some (c :: cs) =>
      match hw : P (parseAgentResponse c.content).text with
      | some wd =>
          exact ⟨{ role := "agent", content := some { c.content with text := some confirmationText }
                 , widget := some wd, error := none },
            by simp [agentSuccessStep, hr, hw, appendStore]⟩
      | none =>
          exact ⟨{ role := "agent", content := some c.content, widget := none, error := none },
            by simp [agentSuccessStep, hr, hw, appendStore]⟩

/-- C7: while the busy gate is up, every submission, typed or widget
triggered, leaves the state (history included) unchanged and performs no
agent boundary call. -/
theorem busy_submission_rejected (st : AppState) (userText toolName : Option String)
    (toolArgsJson : String) (transport : TransportOutcome)
    (jsonWidget : String → Option WidgetData) (h : st.isThinking = true) :
    handleSendMessage st userText toolName toolArgsJson transport jsonWidget = (st, []) := by
  simp [handleSendMessage, h]

/-- Witness for C7: a busy state rejects a typed submission and a widget
click without any change. -/
theorem busy_submission_rejected_witness :
    handleSendMessage stBusy0 (some "hello") (some "createPurchaseLink") "\x7b\x7d"
        .failure (fun _ => none) = (stBusy0, []) :=
  busy_submission_rejected stBusy0 (some "hello") (some "createPurchaseLink") "\x7b\x7d"
    .failure (fun _ => none) rfl

/-- C8: the conversation store is append-only: N appends starting from the
empty snapshot yield exactly the N entries in append order, and every run
of the orchestrator extends the committed history by a (possibly empty)
suffix, never reordering, deleting or rewriting what was already stored. -/
theorem store_append_only (ts : List HistoryEntry) (st : AppState)
    (userText toolName : Option String) (toolArgsJson : String)
    (transport : TransportOutcome) (jsonWidget : String → Option WidgetData) :
    appendAll [] ts = ts
    ∧ (appendAll [] ts).length = ts.length
    ∧ ∃ tail, (handleSendMessage st userText toolName toolArgsJson transport jsonWidget).1.history
        = st.history ++ tail := by
  refine ⟨by simp [appendAll_eq], by simp [appendAll_eq], ?_⟩
  by_cases hb : st.isThinking
  · exact ⟨[], by simp [handleSendMessage, hb]⟩
  · match hE : (callAgent transport).error with
    | some e =>
        by_cases he : e = ""
        · obtain ⟨x, hx⟩ := agentSuccessStep_history st
            (match userText with
             | some t => if jsTrim t = "" then st.input else ""
             | none => st.input) (callAgent transport) jsonWidget
          exact ⟨[x], by simp [handleSendMessage, hb, hE, he, hx]⟩
        · exact ⟨[errorEntry e], by simp [handleSendMessage, hb, hE, he, appendStore]⟩
    | none =>
        obtain ⟨x, hx⟩ := agentSuccessStep_history st
          (match userText with
           | some t => if jsTrim t = "" then st.input else ""
           | none => st.input) (callAgent transport) jsonWidget
        exact ⟨[x], by simp [handleSendMessage, hb, hE, hx]⟩

/-- C6 (amended): on every failure of the agent boundary call the
orchestrator appends exactly one error turn, makes exactly one boundary
call (no retry), and drops the busy gate so submissions are accepted
again; the turn carries the fixed fallback message when the failure is a
transport failure, and the error text of the response when the response
itself carries a non-empty error field. -/
theorem agent_failure_error_turn (st : AppState) (userText toolName : Option String)
    (toolArgsJson : String) (transport : TransportOutcome)
    (jsonWidget : String → Option WidgetData) (e : String)
    (hIdle : st.isThinking = false) (hErr : (callAgent transport).error = some e)
    (hne : e ≠ "") :
    (handleSendMessage st userText toolName toolArgsJson transport jsonWidget).1.history
      = st.history ++ [errorEntry e]
    ∧ (handleSendMessage st userText toolName toolArgsJson transport jsonWidget).1.isThinking
      = false
    ∧ (handleSendMessage st userText toolName toolArgsJson transport jsonWidget).2.length = 1
    ∧ (transport = .failure → e = fallbackConnectText) := by
  refine ⟨?_, ?_, ?_, ?_⟩
  · simp [handleSendMessage, hIdle, hErr, hne, appendStore]
  · simp [handleSendMessage, hIdle, hErr, hne]
  · simp [handleSendMessage, hIdle]
  · rintro rfl
    have h2 : some fallbackConnectText = some e := by
      simpa [callAgent] using hErr
    exact (Option.some.inj h2).symm

/-- Witness for C6 at a concrete transport failure: one error turn with
the fixed fallback text, gate down, one boundary call. -/
theorem agent_failure_error_turn_witness :
    (handleSendMessage stIdle0 (some "hi") none "" .failure (fun _ => none)).1.history
      = stIdle0.history ++ [errorEntry fallbackConnectText]
    ∧ (handleSendMessage stIdle0 (some "hi") none "" .failure (fun _ => none)).1.isThinking
      = false
    ∧ (handleSendMessage stIdle0 (some "hi") none "" .failure (fun _ => none)).2.length = 1
    ∧ fallbackConnectText = fallbackConnectText := by
  have h := agent_failure_error_turn stIdle0 (some "hi") none "" .failure (fun _ => none)
    fallbackConnectText rfl rfl (by decide)
  exact ⟨h.1, h.2.1, h.2.2.1, h.2.2.2 rfl⟩

/-- C6 counterexample: a response whose error field carries its own text
produces an error turn with that text, not with the fixed fallback
message the claim states. -/
theorem agent_error_field_not_fallback :
    (handleSendMessage stIdle0 (some "hi") none "" respQuota (fun _ => none)).1.history
      = [greetingEntry, errorEntry "quota exceeded"]
    ∧ ("quota exceeded" : String) ≠ fallbackConnectText :=
  ⟨rfl, by decide⟩

/-- C5 (amended): a call with a non-empty offer id returns the envelope
around the checkout URL; that URL contains the lower-cased offer id and
the eight-character suffix drawn from the fresh UUID of the call; two
calls with the same offer id yield distinct URLs whenever their UUIDs
differ in their first eight characters. -/
theorem purchase_link_url_spec (oid u1 u2 : String) (h : oid ≠ "") :
    createPurchaseLink (some oid) u1
      = { content := [{ type := "text", text := serializePurchaseUrl (checkoutUrl oid u1) }] }
    ∧ (∃ p q, checkoutUrl oid u1 = p ++ (jsToLower oid ++ q))
    ∧ (∃ p q, checkoutUrl oid u1 = p ++ (jsTake8 u1 ++ q))
    ∧ (jsTake8 u1 ≠ jsTake8 u2 → checkoutUrl oid u1 ≠ checkoutUrl oid u2) := by
  refine ⟨by simp [createPurchaseLink, h], ?_, ?_, ?_⟩
  · exact ⟨"https://your-company.com/checkout/", "?source=agent-" ++ jsTake8 u1,
      by simp [checkoutUrl, String.append_assoc]⟩
  · refine ⟨"https://your-company.com/checkout/" ++ (jsToLower oid ++ "?source=agent-"), "", ?_⟩
    simp [checkoutUrl, String.append_assoc, String.append_empty]
  · intro hne heq
    simp only [checkoutUrl] at heq
    exact hne (str_append_left_cancel heq)

/-- Witness for C5 (amended) at a mixed-case id and two UUIDs with
distinct eight-character prefixes. -/
theorem purchase_link_url_spec_witness :
    createPurchaseLink (some "Home_Pro") uuidA
      = { content := [{ type := "text", text := serializePurchaseUrl (checkoutUrl "Home_Pro" uuidA) }] }
    ∧ (∃ p q, checkoutUrl "Home_Pro" uuidA = p ++ (jsToLower "Home_Pro" ++ q))
    ∧ (∃ p q, checkoutUrl "Home_Pro" uuidA = p ++ (jsTake8 uuidA ++ q))
    ∧ checkoutUrl "Home_Pro" uuidA ≠ checkoutUrl "Home_Pro" uuidC := by
  have h := purchase_link_url_spec "Home_Pro" uuidA uuidC (by decide)
  exact ⟨h.1, h.2.1, h.2.2.1, h.2.2.2 (by decide)⟩

/-- C5 counterexample: two calls with the same offer id and two distinct
freshly generated UUIDs that agree on their first eight characters return
identical envelopes, hence identical URLs; the claim that no two calls
with the same offer id ever produce identical URLs fails. -/
theorem purchase_link_url_collision :
    uuidA ≠ uuidB
    ∧ createPurchaseLink (some "home_pro") uuidA = createPurchaseLink (some "home_pro") uuidB :=
  ⟨by decide, rfl⟩

/-- C1: evaluating the orchestrator at a user submission of non-empty
text from the idle greeting state with a successful agent response: the
transcript sent to the agent does contain the user turn after the
greeting, but the committed conversation gains only the agent turn — its
roles are agent, agent and its length is two, not the three entries
(greeting, user, agent) the claim requires. The user turn is pushed only
onto the local transcript; every setHistory call appends a single entry
to the previously committed history. -/
theorem user_turn_not_stored :
    (handleSendMessage stIdle0 (some "hi") none "" okResponse (fun _ => none)).2
      = [[greetingEntry, userEntry "hi"]]
    ∧ ((handleSendMessage stIdle0 (some "hi") none "" okResponse (fun _ => none)).1.history.map
        HistoryEntry.role) = ["agent", "agent"]
    ∧ (handleSendMessage stIdle0 (some "hi") none "" okResponse (fun _ => none)).1.history.length
      = 2 :=
  ⟨rfl, rfl, rfl⟩

/-- C3: evaluating the orchestrator at a successful agent response whose
single part carries a serialized widget payload, with a parse oracle that
recovers the widget data from exactly that string: the oracle does parse
the payload text, but the code extracts the text by running
parseAgentResponse on the content object itself (which has no content
property), so the extraction yields the empty string, the appended turn
carries no widget tag and keeps its original content, and the text the
display layer derives for it is not the fixed confirmation string. -/
theorem widget_payload_never_tagged :
    widgetOracle widgetText0 = some wd0
    ∧ (parseAgentResponse widgetRespContent).text = ""
    ∧ (handleSendMessage stIdle0 (some "show offers") none "" widgetResp widgetOracle).1.history
      = [greetingEntry,
         { role := "agent", content := some widgetRespContent, widget := none, error := none }]
    ∧ displayedText
        { role := "agent", content := some widgetRespContent, widget := none, error := none }
      ≠ confirmationText := by
  refine ⟨by simp [widgetOracle], rfl, ?_, by decide⟩
  rfl
